import Mathlib

/-!
Verification of the task-board client store against its source.

The development shallowly embeds the reducer-based task store
(`useTasks`), its remote-call wrappers, the optimistic `moveTask`
operation, the debounced realtime handler, and the recursive comment
renderer of the task-detail modal.  Stateful hook code is modelled as
pure state-transformer functions `State → State × List Event`, where the
`Event` trace records the remote calls issued (and console-error logs).
The backend (a hosted RPC service external to the client code) is
modelled from the spec as a row table plus a failure switch.
-/

namespace TaskBoard

/-- The three kanban status keys of the store (`statusKeyArray` in the source). -/
inductive StatusKey where
  | toDo
  | inProgress
  | done
deriving DecidableEq, Repr

/-- `statusKeyArray = ["to-do", "in-progress", "done"]`. -/
def statusKeyArray : List StatusKey := [.toDo, .inProgress, .done]

/-- `statusKeyToStatusLabel`: maps a status key to its display label. -/
def statusKeyToStatusLabel : StatusKey → String
  | .toDo => "To Do"
  | .inProgress => "In Progress"
  | .done => "Done"

/-- A record with one value per status key, embedding the TS
`Record<StatusKey, α>` objects. -/
structure ByStatus (α : Type) where
  toDo : α
  inProgress : α
  done : α
deriving DecidableEq, Repr

/-- Read the entry of one status key. -/
def ByStatus.get (r : ByStatus α) : StatusKey → α
  | .toDo => r.toDo
  | .inProgress => r.inProgress
  | .done => r.done

/-- Replace the entry of one status key. -/
def ByStatus.set (r : ByStatus α) : StatusKey → α → ByStatus α
  | .toDo, v => { r with toDo := v }
  | .inProgress, v => { r with inProgress := v }
  | .done, v => { r with done := v }

/-- The record holding the same value at every status key. -/
def ByStatus.const (v : α) : ByStatus α := ⟨v, v, v⟩

/-- Modelled from the spec: the `Task` row type (`src/types/tasks` is not
in the sources).  Spec data model: id, title, description, status label,
category, subcategory, country, creation time, hourly-budget type and an
amount; creation times are modelled as naturals under their chronological
order.  Only the fields consulted by the modelled queries are kept. -/
structure Task where
  id : Nat
  title : String
  description : String
  status : String
  category : Option String
  subcategory : Option String
  country : Option String
  created_at : Nat
  hourlyBudgetType : Option String
  amount : Int
deriving DecidableEq, Repr

/-- The `dateRange` filter value (`{from, to}` in the source). -/
structure DateRange where
  dfrom : Option Nat
  dto : Option Nat
deriving DecidableEq, Repr

/-- The `priceRange` filter value (`{from, to}` in the source). -/
structure PriceRange where
  pfrom : Option Int
  pto : Option Int
deriving DecidableEq, Repr

/-- The store state of the `useTasks` reducer. -/
structure State where
  tasksByStatus : ByStatus (List Task)
  statusFilter : Option String
  categoryFilter : Option String
  subcategoryFilter : Option String
  dateRange : DateRange
  limit : Option Nat
  pageByStatus : ByStatus Nat
  hasMoreByStatus : ByStatus Bool
  loading : Bool
  searchQuery : Option String
  totalCountByStatus : ByStatus Nat
  filtersChanged : Bool
  selectedCountries : List String
  countryOptions : List String
  hourlyBudgetType : Option String
  priceRange : PriceRange
deriving DecidableEq, Repr

/-- The `initialState` of the reducer. -/
def initialState : State where
  tasksByStatus := ByStatus.const []
  statusFilter := none
  categoryFilter := none
  subcategoryFilter := none
  dateRange := ⟨none, none⟩
  limit := none
  pageByStatus := ByStatus.const 0
  hasMoreByStatus := ByStatus.const true
  loading := false
  searchQuery := none
  totalCountByStatus := ByStatus.const 0
  filtersChanged := false
  selectedCountries := []
  countryOptions := []
  hourlyBudgetType := none
  priceRange := ⟨none, none⟩

/-- The reducer's `Action` union. -/
inductive Action where
  | setTasksByStatus (payload : ByStatus (List Task))
  | setStatusFilter (payload : Option String)
  | setCategoryFilter (payload : Option String)
  | setSubcategoryFilter (payload : Option String)
  | setDateRange (payload : DateRange)
  | setLimit (payload : Option Nat)
  | setPageByStatus (status : StatusKey) (page : Nat)
  | setHasMoreByStatus (status : StatusKey) (hasMore : Bool)
  | setLoading (payload : Bool)
  | setSearchQuery (payload : Option String)
  | setTotalCountByStatus (payload : ByStatus Nat)
  | resetPagination
  | setFiltersChanged (payload : Bool)
  | updateTasksForStatus (status : StatusKey) (tasks : List Task)
  | setSelectedCountries (payload : List String)
  | setCountryOptions (payload : List String)
  | setHourlyBudgetType (payload : Option String)
  | setPriceRange (payload : PriceRange)
deriving DecidableEq, Repr

/-- The store reducer (the `reducer` function of the hook).  Filter
setters additionally set `filtersChanged`; `RESET_PAGINATION` wipes the
three task lists, pages and has-more flags. -/
def reducer (state : State) : Action → State
  | .setTasksByStatus payload => { state with tasksByStatus := payload }
  | .updateTasksForStatus status tasks =>
      { state with tasksByStatus := state.tasksByStatus.set status tasks }
  | .setStatusFilter payload =>
      { state with statusFilter := payload, filtersChanged := true }
  | .setCategoryFilter payload =>
      { state with categoryFilter := payload, filtersChanged := true }
  | .setSubcategoryFilter payload =>
      { state with subcategoryFilter := payload, filtersChanged := true }
  | .setDateRange payload =>
      { state with dateRange := payload, filtersChanged := true }
  | .setLimit payload =>
      { state with limit := payload, filtersChanged := true }
  | .setLoading payload => { state with loading := payload }
  | .setSearchQuery payload =>
      { state with searchQuery := payload, filtersChanged := true }
  | .setPageByStatus status page =>
      { state with pageByStatus := state.pageByStatus.set status page }
  | .setHasMoreByStatus status hasMore =>
      { state with hasMoreByStatus := state.hasMoreByStatus.set status hasMore }
  | .setTotalCountByStatus payload =>
      { state with totalCountByStatus := payload }
  | .resetPagination =>
      { state with
        pageByStatus := ByStatus.const 0
        hasMoreByStatus := ByStatus.const true
        tasksByStatus := ByStatus.const [] }
  | .setFiltersChanged payload => { state with filtersChanged := payload }
  | .setSelectedCountries payload =>
      { state with selectedCountries := payload, filtersChanged := true }
  | .setCountryOptions payload => { state with countryOptions := payload }
  | .setHourlyBudgetType payload =>
      { state with hourlyBudgetType := payload, filtersChanged := true }
  | .setPriceRange payload =>
      { state with priceRange := payload, filtersChanged := true }

/-- The reducer actions dispatched by the filter setters (the nine
setter callbacks whose reducer cases mark `filtersChanged`). -/
def Action.isFilterAction : Action → Bool
  | .setStatusFilter _ => true
  | .setCategoryFilter _ => true
  | .setSubcategoryFilter _ => true
  | .setDateRange _ => true
  | .setLimit _ => true
  | .setSearchQuery _ => true
  | .setSelectedCountries _ => true
  | .setHourlyBudgetType _ => true
  | .setPriceRange _ => true
  | _ => false

/-- The filter arguments carried by the list and count RPCs
(`get_task_by_status` / `get_task_count_by_status` parameters other than
status, limit and offset).  An empty `selectedCountries` stands for the
`null` country filter the wrappers send when no country is selected. -/
structure FetchFilters where
  categoryFilter : Option String
  subcategoryFilter : Option String
  dateFrom : Option Nat
  dateTo : Option Nat
  searchQuery : Option String
  selectedCountries : List String
  hourlyBudgetType : Option String
  priceFrom : Option Int
  priceTo : Option Int
deriving DecidableEq, Repr

/-- Substring test used to model the search filter (`ilike` on title). -/
def containsSub (s q : String) : Bool :=
  if q.isEmpty then true else (s.splitOn q).length != 1

/-- Modelled from the spec: the row predicate of the backend RPCs
`get_task_by_status` / `get_task_count_by_status` (Postgres functions,
not part of the client sources).  A row matches when its status equals
the requested label and every non-null filter accepts it; the
hourly-budget filter value `"null"` selects rows with no budget type. -/
def matchesQuery (status : String) (f : FetchFilters) (t : Task) : Bool :=
  t.status == status
  && (match f.categoryFilter with
      | none => true
      | some c => t.category == some c)
  && (match f.subcategoryFilter with
      | none => true
      | some c => t.subcategory == some c)
  && (match f.dateFrom with
      | none => true
      | some d => decide (d ≤ t.created_at))
  && (match f.dateTo with
      | none => true
      | some d => decide (t.created_at ≤ d))
  && (match f.searchQuery with
      | none => true
      | some q => containsSub t.title q)
  && (f.selectedCountries.isEmpty
      || (match t.country with
          | some c => f.selectedCountries.contains c
          | none => false))
  && (match f.hourlyBudgetType with
      | none => true
      | some h =>
          if h == "null" then t.hourlyBudgetType == none
          else t.hourlyBudgetType == some h)
  && (match f.priceFrom with
      | none => true
      | some p => decide (p ≤ t.amount))
  && (match f.priceTo with
      | none => true
      | some p => decide (t.amount ≤ p))

/-- Modelled from the spec: the hosted backend.  `rows` is the projects
table held in creation-descending order (the order the list RPC pages
through); `failing` makes every RPC return an error, to model remote
failures. -/
structure Backend where
  rows : List Task
  failing : Bool
deriving DecidableEq, Repr

/-- Modelled from the spec: the `get_task_by_status` RPC — the matching
rows, paged by `offset`/`limit` — or an error when the backend fails. -/
def listRpc (b : Backend) (status : String) (f : FetchFilters)
    (limit offset : Nat) : Except String (List Task) :=
  if b.failing then .error "rpc error"
  else .ok (((b.rows.filter (matchesQuery status f)).drop offset).take limit)

/-- Modelled from the spec: the `get_task_count_by_status` RPC — the
number of matching rows — or an error when the backend fails. -/
def countRpc (b : Backend) (status : String) (f : FetchFilters) :
    Except String (Option Nat) :=
  if b.failing then .error "rpc error"
  else .ok (some (b.rows.filter (matchesQuery status f)).length)

/-- Result handling of the list fetch wrapper: an RPC error yields the
empty list (the error is only logged); otherwise the rows are returned. -/
def fetchTasksByStatusResult : Except String (List Task) → List Task
  | .error _ => []
  | .ok data => data

/-- A remote call issued by the store, as recorded in the event trace. -/
inductive RemoteCall where
  | getTaskByStatus (status : String) (f : FetchFilters) (limit offset : Nat)
  | getTaskCountByStatus (status : String) (f : FetchFilters)
  | updateTaskStatus (taskId : Nat) (newStatus : String)
deriving DecidableEq, Repr

/-- An observable effect of a store operation: a remote call or a
console-error log. -/
inductive Event where
  | rpc (c : RemoteCall)
  | consoleError (context : String)
deriving DecidableEq, Repr

/-- Whether an event is the `update_task_status` remote call. -/
def Event.isUpdateTaskStatus : Event → Bool
  | .rpc (.updateTaskStatus _ _) => true
  | _ => false

/-- Whether an event is a list fetch (`get_task_by_status`) for the
given status label. -/
def Event.isGetTaskByStatusFor (label : String) : Event → Bool
  | .rpc (.getTaskByStatus status _ _ _) => status == label
  | _ => false

/-- Whether an event is a console-error log. -/
def Event.isConsoleError : Event → Bool
  | .consoleError _ => true
  | _ => false

/-- The console-error log of the list fetch wrapper's error branch
(part_001 lines 353-356: `console.error("Error fetching tasks:", ...)`). -/
def listRpcLogEvents : Except String (List Task) → List Event
  | .error _ => [.consoleError "Error fetching tasks"]
  | .ok _ => []

/-- The console-error log of the count wrapper's error branch (part_001
lines 298-300: `console.error(` Count error for status s `, ...)`). -/
def countRpcLogEvents (status : String) : Except String (Option Nat) → List Event
  | .error _ => [.consoleError ("Count error for status " ++ status)]
  | .ok _ => []

/-- `PAGE_SIZE = 10`. -/
def PAGE_SIZE : Nat := 10

/-- The hourly-budget parameter mapping of the list-fetch wrapper
(`fetchTasksByStatus` lines 326-334): a JS-falsy value (absent or empty
string) sends null, the sentinel `"null"` passes through, anything else
is upper-cased. -/
def hbtFetchParam : Option String → Option String
  | none => none
  | some s => if s == "" then none else if s == "null" then some "null" else some s.toUpper

/-- The hourly-budget parameter mapping of the count wrapper
(`getTaskCountByStatus` lines 290-293): the sentinel `"null"` passes
through, any other present value is upper-cased. -/
def hbtCountParam : Option String → Option String
  | none => none
  | some s => if s == "null" then some "null" else some s.toUpper

/-- The `filters` parameter object of the `fetchTasksByStatus` wrapper. -/
structure FetchArgs where
  categoryFilter : Option String
  subcategoryFilter : Option String
  dateRange : DateRange
  searchQuery : Option String
  limit : Option Nat
  offset : Nat
  selectedCountries : List String
  hourlyBudgetType : Option String
  priceFrom : Option Int
  priceTo : Option Int
deriving DecidableEq, Repr

/-- The RPC filter parameters the `fetchTasksByStatus` wrapper builds
from its `filters` argument. -/
def fetchFiltersOfArgs (a : FetchArgs) : FetchFilters where
  categoryFilter := a.categoryFilter
  subcategoryFilter := a.subcategoryFilter
  dateFrom := a.dateRange.dfrom
  dateTo := a.dateRange.dto
  searchQuery := a.searchQuery
  selectedCountries := a.selectedCountries
  hourlyBudgetType := hbtFetchParam a.hourlyBudgetType
  priceFrom := a.priceFrom
  priceTo := a.priceTo

/-- The `fetchTasksByStatus` wrapper (part_001 lines 306-365): issues
one `get_task_by_status` RPC with the defaulted limit and offset, and
returns the rows — or, on error, the empty list after logging a
console error. -/
def fetchTasksByStatus (b : Backend) (status : String) (a : FetchArgs) :
    List Task × List Event :=
  let effectiveLimit := a.limit.getD PAGE_SIZE
  let f := fetchFiltersOfArgs a
  let r := listRpc b status f effectiveLimit a.offset
  (fetchTasksByStatusResult r,
   .rpc (.getTaskByStatus status f effectiveLimit a.offset)
     :: listRpcLogEvents r)

/-- The `getTaskCountByStatus` wrapper (part_001 lines 272-304): issues
one `get_task_count_by_status` RPC and returns the count — 0, after a
console-error log, on error, and 0 on null data. -/
def getTaskCountByStatus (b : Backend) (status : String)
    (category subcategory : Option String) (dr : DateRange)
    (searchQuery : Option String) (selectedCountries : List String)
    (hbt : Option String) (pr : PriceRange) : Nat × List Event :=
  let f : FetchFilters :=
    { categoryFilter := category
      subcategoryFilter := subcategory
      dateFrom := dr.dfrom
      dateTo := dr.dto
      searchQuery := searchQuery
      selectedCountries := selectedCountries
      hourlyBudgetType := hbtCountParam hbt
      priceFrom := pr.pfrom
      priceTo := pr.pto }
  let r := countRpc b status f
  (match r with
   | .error _ => 0
   | .ok d => d.getD 0,
   .rpc (.getTaskCountByStatus status f) :: countRpcLogEvents status r)

/-- One per-status count of `fetchStatusWiseCounts` (part_001 lines
378-395): the current filters are applied only when the status filter is
absent or names this status. -/
def countFor (b : Backend) (s : State) (key : StatusKey) : Nat × List Event :=
  let label := statusKeyToStatusLabel key
  let isFilteredStatus := s.statusFilter == none || s.statusFilter == some label
  getTaskCountByStatus b label
    (if isFilteredStatus then s.categoryFilter else none)
    (if isFilteredStatus then s.subcategoryFilter else none)
    (if isFilteredStatus then s.dateRange else ⟨none, none⟩)
    (if isFilteredStatus then s.searchQuery else none)
    (if isFilteredStatus then s.selectedCountries else [])
    (if isFilteredStatus then s.hourlyBudgetType else none)
    (if isFilteredStatus then s.priceRange else ⟨none, none⟩)

/-- `fetchStatusWiseCounts` (part_001 lines 367-399): refreshes the
per-status total counts with one count RPC per status. -/
def fetchStatusWiseCounts (b : Backend) (s : State) : State × List Event :=
  let counts : ByStatus Nat :=
    ⟨(countFor b s .toDo).1, (countFor b s .inProgress).1, (countFor b s .done).1⟩
  (reducer s (.setTotalCountByStatus counts),
   (countFor b s .toDo).2 ++ (countFor b s .inProgress).2 ++ (countFor b s .done).2)

/-- The `filters` object `loadMoreTasks` passes to the fetch wrapper for
one status (part_001 lines 429-461): state filters when the status
filter is absent or names this status, null filters otherwise; the limit
is the defaulted page size and the offset the page times that limit. -/
def loadArgsFor (s : State) (key : StatusKey) (reset : Bool) : FetchArgs :=
  let label := statusKeyToStatusLabel key
  let effectiveLimit := s.limit.getD PAGE_SIZE
  let page := if reset then 0 else s.pageByStatus.get key
  let shouldApplyFilters := s.statusFilter == none || s.statusFilter == some label
  { categoryFilter := if shouldApplyFilters then s.categoryFilter else none
    subcategoryFilter := if shouldApplyFilters then s.subcategoryFilter else none
    dateRange := if shouldApplyFilters then s.dateRange else ⟨none, none⟩
    searchQuery := if shouldApplyFilters then s.searchQuery else none
    selectedCountries := if shouldApplyFilters then s.selectedCountries else []
    hourlyBudgetType := if shouldApplyFilters then s.hourlyBudgetType else none
    priceFrom := if shouldApplyFilters then s.priceRange.pfrom else none
    priceTo := if shouldApplyFilters then s.priceRange.pto else none
    limit := some effectiveLimit
    offset := page * effectiveLimit }

/-- The RPC filter parameters a non-reset `loadMoreTasks` sends for one
status: the composition of `loadArgsFor` with the wrapper's mapping. -/
def loadRpcFilters (s : State) (key : StatusKey) : FetchFilters :=
  fetchFiltersOfArgs (loadArgsFor s key false)

/-- The per-status outcome of one `loadMoreTasks` fetch. -/
structure LoadResult where
  key : StatusKey
  tasks : List Task
  page : Nat
  evs : List Event
deriving Repr

/-- One status's fetch inside `loadMoreTasks`. -/
def loadOne (b : Backend) (s : State) (reset : Bool) (key : StatusKey) :
    LoadResult :=
  let label := statusKeyToStatusLabel key
  let page := if reset then 0 else s.pageByStatus.get key
  let r := fetchTasksByStatus b label (loadArgsFor s key reset)
  { key := key, tasks := r.1, page := page, evs := r.2 }

/-- The three dispatches of the non-reset branch for one status
(part_001 lines 467-485): append the fetched page to the snapshot list,
advance the page, and set has-more to whether a full page came back. -/
def applyNonResetDispatches (s0 : State) (effectiveLimit : Nat)
    (st : State) (r : LoadResult) : State :=
  let st1 := reducer st (.updateTasksForStatus r.key ((s0.tasksByStatus.get r.key) ++ r.tasks))
  let st2 := reducer st1 (.setPageByStatus r.key (r.page + 1))
  reducer st2 (.setHasMoreByStatus r.key (r.tasks.length == effectiveLimit))

/-- `loadMoreTasks` (part_001 lines 401-523).  Skips when a load is in
flight and not resetting, or when no selected status has more to load;
otherwise fetches one page per selected status against the state
snapshot, dispatches the list/page/has-more updates (on reset: page 1,
has-more, then the whole rebuilt task record), and finally clears
`loading` (and `filtersChanged` on reset).  Returns the settled state
and the trace of issued fetches. -/
def loadMoreTasks (b : Backend) (reset : Bool)
    (specificStatus : Option StatusKey) (s : State) : State × List Event :=
  if s.loading && !reset then (s, [])
  else
    let statuses := match specificStatus with
      | some k => [k]
      | none => statusKeyArray
    let shouldLoadMore := statuses.any (fun key =>
      reset
      || (decide ((s.tasksByStatus.get key).length < s.totalCountByStatus.get key)
          && s.hasMoreByStatus.get key))
    if !shouldLoadMore && !reset then (s, [])
    else
      let effectiveLimit := s.limit.getD PAGE_SIZE
      let results := statuses.map (loadOne b s reset)
      let s1 :=
        if reset then
          let afterPages := results.foldl (fun st r =>
            reducer (reducer st (.setPageByStatus r.key 1))
              (.setHasMoreByStatus r.key (r.tasks.length == effectiveLimit))) s
          let newTasksByStatus := results.foldl
            (fun acc r => acc.set r.key r.tasks) (ByStatus.const [])
          reducer afterPages (.setTasksByStatus newTasksByStatus)
        else
          results.foldl (applyNonResetDispatches s effectiveLimit) s
      let s2 := reducer s1 (.setLoading false)
      let s3 := if reset then reducer s2 (.setFiltersChanged false) else s2
      (s3, (results.map LoadResult.evs).flatten)

/-- JS `Array.prototype.splice(i, 0, a)`: insert `a` at index `i`,
clamped to the end of the list. -/
def spliceInsert (i : Nat) (a : α) (l : List α) : List α :=
  l.take i ++ a :: l.drop i

/-- `moveTask` (part_001 lines 539-579).  Finds the task by string id in
the source column; if absent, does nothing.  Otherwise relocates it
optimistically (dropping it from both columns' lists and splicing the
relabelled copy into the destination at `destIndex`), issues the
`update_task_status` RPC — logging, not reverting, on failure — and
refreshes the counts. -/
def moveTask (b : Backend) (updateFails : Bool) (s : State) (taskId : String)
    (sourceCol destCol : StatusKey) (destIndex : Nat) : State × List Event :=
  match (s.tasksByStatus.get sourceCol).find? (fun t => toString t.id == taskId) with
  | none => (s, [])
  | some task =>
    let newSourceTasks := (s.tasksByStatus.get sourceCol).filter
      (fun t => toString t.id != taskId)
    let updatedTask : Task := { task with status := statusKeyToStatusLabel destCol }
    let newDestTasks := spliceInsert destIndex updatedTask
      ((s.tasksByStatus.get destCol).filter (fun t => toString t.id != taskId))
    let s1 := reducer s (.setTasksByStatus
      ((s.tasksByStatus.set sourceCol newSourceTasks).set destCol newDestTasks))
    let updateEvents : List Event :=
      .rpc (.updateTaskStatus task.id updatedTask.status)
        :: (if updateFails then [.consoleError "Failed to update task status"] else [])
    let r := fetchStatusWiseCounts b s1
    (r.1, updateEvents ++ r.2)

/-- The `filtersChanged` effect (part_001 lines 620-639): when a filter
setter has marked the state dirty, reset the pagination, run one reset
load, and refresh the counts.  (The reset load's dispatches are
independent of whether it reads the pre- or post-reset snapshot: the
reset path uses page 0 and the unchanged filter fields only, so the
sequential composition below settles to the same state.) -/
def filtersChangedEffect (b : Backend) (s : State) : State × List Event :=
  if s.filtersChanged then
    let s1 := reducer s .resetPagination
    let r2 := loadMoreTasks b true none s1
    let r3 := fetchStatusWiseCounts b r2.1
    (r3.1, r2.2 ++ r3.2)
  else (s, [])

/-- Modelled from the spec: trailing-edge `lodash.debounce` over a
sorted list of call times — each call restarts a `wait` timer, and the
wrapped function fires when the timer expires, so a call followed within
`wait` by another contributes no firing of its own. -/
def debounceFires (wait : Nat) : List Nat → List Nat
  | [] => []
  | [t] => [t + wait]
  | t1 :: t2 :: rest =>
      if t2 < t1 + wait then debounceFires wait (t2 :: rest)
      else (t1 + wait) :: debounceFires wait (t2 :: rest)

/-- The body of the debounced `handleRealtimeUpdate` (part_001 lines
581-590): when not loading, one reset load followed by one count
refresh. -/
def handleRealtimeFire (b : Backend) (s : State) : State × List Event :=
  if s.loading then (s, [])
  else
    let r1 := loadMoreTasks b true none s
    let r2 := fetchStatusWiseCounts b r1.1
    (r2.1, r1.2 ++ r2.2)

/-- A burst of realtime change notifications at the given times: the
debounced handler body runs once per debounce firing. -/
def realtimeBurst (b : Backend) (wait : Nat) (events : List Nat) (s : State) :
    State × List Event :=
  (debounceFires wait events).foldl (fun acc _ =>
    let r := handleRealtimeFire b acc.1
    (r.1, acc.2 ++ r.2)) (s, [])

/-- A row of the comments table, as selected by `fetchComments`
(TasksDetailsModal lines 180-190). -/
structure Comment where
  id : Nat
  content : String
  created_at : Nat
  updated_at : Option Nat
  user_id : Nat
  user_email : String
  parent_id : Option Nat
deriving DecidableEq, Repr

/-- A rendered comment node: the comment and its rendered replies. -/
inductive RenderedComment where
  | node : Comment → List RenderedComment → RenderedComment

/-- `renderComments` (TasksDetailsModal lines 272-332), fuel-indexed:
at each level the flat list is filtered on the parent reference and each
match is rendered with its replies nested inside it.  The TS recursion
is unbounded (and diverges on cyclic parent chains); the fuel bounds the
nesting depth, and `comments.length + 1` suffices for well-formed data
since every level consumes a distinct comment. -/
def renderCommentsAux (comments : List Comment) :
    Nat → Option Nat → List RenderedComment
  | 0, _ => []
  | fuel + 1, parentId =>
      (comments.filter (fun c => c.parent_id == parentId)).map
        (fun c => .node c (renderCommentsAux comments fuel (some c.id)))

/-- The top-level `renderComments()` call of the modal body. -/
def renderComments (comments : List Comment) : List RenderedComment :=
  renderCommentsAux comments (comments.length + 1) none

/-- A "To Do" row with category "Writing", for the pagination scenario. -/
def writingRow (i : Nat) : Task :=
  { id := i, title := toString i, description := "", status := "To Do",
    category := some "Writing", subcategory := none, country := none,
    created_at := 100 - i, hourlyBudgetType := none, amount := 0 }

/-- A "To Do" row with a different category, not matching the scenario
filter. -/
def designRow (i : Nat) : Task :=
  { id := i, title := toString i, description := "", status := "To Do",
    category := some "Design", subcategory := none, country := none,
    created_at := 100 - i, hourlyBudgetType := none, amount := 0 }

/-- Scenario backend: exactly 25 "To Do" rows match `{category:
"Writing"}`, plus two rows of another category. -/
def c2Backend : Backend :=
  { rows := (List.range 25).map writingRow ++ [designRow 100, designRow 101],
    failing := false }

/-- The initial store state after the user sets the filter set
`{category: "Writing", limit: 10}`. -/
def c2Start : State :=
  reducer (reducer initialState (.setCategoryFilter (some "Writing")))
    (.setLimit (some 10))

/-- Scenario state after the filter-change effect (pagination reset, the
first — reset — `loadMoreTasks` call, and the count refresh). -/
def c2AfterEffect : State := (filtersChangedEffect c2Backend c2Start).1

/-- Scenario state after one further non-reset `loadMoreTasks` call. -/
def c2AfterOne : State := (loadMoreTasks c2Backend false none c2AfterEffect).1

/-- Scenario state after two further non-reset `loadMoreTasks` calls. -/
def c2AfterTwo : State := (loadMoreTasks c2Backend false none c2AfterOne).1

/-- A plain unfiltered "To Do" row for the has-more counterexample. -/
def c4Row (i : Nat) : Task :=
  { id := i, title := "", description := "", status := "To Do",
    category := none, subcategory := none, country := none,
    created_at := 0, hourlyBudgetType := none, amount := 0 }

/-- Counterexample backend: two "To Do" rows (a full page at limit 2). -/
def c4Backend : Backend := { rows := [c4Row 0, c4Row 1], failing := false }

/-- Counterexample state: the to-do column is marked exhausted
(`hasMore = false`) at page 0, while the in-progress column still has
more to load (count 1 against an empty list), so a non-reset load
proceeds and refetches the to-do column as well. -/
def c4State : State :=
  { initialState with
    limit := some 2
    hasMoreByStatus := ⟨false, true, true⟩
    totalCountByStatus := ⟨0, 1, 0⟩ }

/-- Amended-claim witness state: the to-do column is exhausted after one
page (limit 2, page 1), the in-progress column still has more to load,
and the backend has not grown past the first page. -/
def c4AmendedState : State :=
  { initialState with
    limit := some 2
    pageByStatus := ⟨1, 0, 0⟩
    hasMoreByStatus := ⟨false, true, true⟩
    totalCountByStatus := ⟨0, 1, 0⟩ }

/-- A concrete task used by the witness states. -/
def wTask : Task :=
  { id := 7, title := "w", description := "", status := "To Do",
    category := none, subcategory := none, country := none,
    created_at := 1, hourlyBudgetType := none, amount := 0 }

/-- A second concrete task living in the done column of the witness
state. -/
def wTask2 : Task :=
  { id := 8, title := "x", description := "", status := "Done",
    category := none, subcategory := none, country := none,
    created_at := 2, hourlyBudgetType := none, amount := 0 }

/-- Witness state: `wTask` sits in the to-do column and `wTask2` in the
done column. -/
def wState : State :=
  { initialState with tasksByStatus := ⟨[wTask], [], [wTask2]⟩ }

/-- Witness backend: empty and healthy. -/
def wBackend : Backend := { rows := [], failing := false }

/-- Concrete comments for the rendering witness: the reply appears
before its parent in the flat list. -/
def wChildComment : Comment :=
  { id := 2, content := "reply", created_at := 5, updated_at := none,
    user_id := 1, user_email := "a", parent_id := some 1 }

/-- The parent comment of the rendering witness, a top-level comment. -/
def wParentComment : Comment :=
  { id := 1, content := "root", created_at := 4, updated_at := none,
    user_id := 1, user_email := "a", parent_id := none }

/-- The witness comment list, child first. -/
def wComments : List Comment := [wChildComment, wParentComment]

/-- Reading back the entry just written. -/
theorem ByStatus.get_set_self (r : ByStatus α) (k : StatusKey) (v : α) :
    (r.set k v).get k = v := by
  cases k <;> rfl

/-- Writing one entry leaves the others unchanged. -/
theorem ByStatus.get_set_ne (r : ByStatus α) (k k' : StatusKey) (v : α)
    (h : k ≠ k') : (r.set k' v).get k = r.get k := by
  cases k <;> cases k' <;> first
    | exact absurd rfl h
    | rfl

/-- The element spliced in at an in-range index is found at that index. -/
theorem spliceInsert_getElem (i : Nat) (a : α) (l : List α) (h : i ≤ l.length) :
    (spliceInsert i a l)[i]? = some a := by
  unfold spliceInsert
  have hlen : (l.take i).length = i := by
    simp [List.length_take, Nat.min_eq_left h]
  rw [List.getElem?_append_right (le_of_eq hlen)]
  simp [hlen]

/-- C5: a non-reset `loadMoreTasks` call on a store that is already
loading performs no remote fetch and leaves the state unchanged. -/
theorem c5_loading_skips_nonreset_load (b : Backend)
    (spec : Option StatusKey) (s : State) (h : s.loading = true) :
    loadMoreTasks b false spec s = (s, []) := by
  simp [loadMoreTasks, h]

/-- C5 witness: the skip at a concrete loading state. -/
theorem c5_witness :
    ({ initialState with loading := true } : State).loading = true
    ∧ loadMoreTasks wBackend false none { initialState with loading := true }
        = ({ initialState with loading := true }, []) :=
  ⟨rfl, c5_loading_skips_nonreset_load wBackend none _ rfl⟩

/-- C10: when no task in the source column has the requested id,
`moveTask` changes nothing and issues no remote call. -/
theorem c10_moveTask_missing_id_noop (b : Backend) (updateFails : Bool)
    (s : State) (taskId : String) (sourceCol destCol : StatusKey)
    (destIndex : Nat)
    (h : ∀ t ∈ s.tasksByStatus.get sourceCol, toString t.id ≠ taskId) :
    moveTask b updateFails s taskId sourceCol destCol destIndex = (s, []) := by
  have hfind : (s.tasksByStatus.get sourceCol).find?
      (fun t => toString t.id == taskId) = none := by
    rw [List.find?_eq_none]
    intro t ht
    simpa using h t ht
  simp [moveTask, hfind]

/-- C10 witness: moving an id absent from the (empty) to-do column of
the initial state is a no-op. -/
theorem c10_witness :
    (∀ t ∈ initialState.tasksByStatus.get .toDo, toString t.id ≠ "7")
    ∧ moveTask wBackend false initialState "7" .toDo .done 0
        = (initialState, []) := by
  refine ⟨by simp [initialState, ByStatus.const, ByStatus.get], ?_⟩
  exact c10_moveTask_missing_id_noop wBackend false initialState "7" .toDo .done 0
    (by simp [initialState, ByStatus.const, ByStatus.get])

/-- C8: a failing list or count RPC makes the wrappers return the empty
list and 0 — the same results as a successful call over a backend with
no matching rows — surfacing no error. -/
theorem c8_rpc_error_is_empty_result (rows : List Task) (status : String)
    (a : FetchArgs) (category subcategory : Option String) (dr : DateRange)
    (sq : Option String) (cs : List String) (hbt : Option String)
    (pr : PriceRange) :
    (fetchTasksByStatus ⟨rows, true⟩ status a).1 = []
    ∧ (fetchTasksByStatus ⟨rows, true⟩ status a).1
        = (fetchTasksByStatus ⟨[], false⟩ status a).1
    ∧ (getTaskCountByStatus ⟨rows, true⟩ status category subcategory dr sq cs hbt pr).1 = 0
    ∧ (getTaskCountByStatus ⟨rows, true⟩ status category subcategory dr sq cs hbt pr).1
        = (getTaskCountByStatus ⟨[], false⟩ status category subcategory dr sq cs hbt pr).1 := by
  simp [fetchTasksByStatus, listRpc, fetchTasksByStatusResult,
    getTaskCountByStatus, countRpc]

/-- C2: with filter set `{category: "Writing", limit: 10}` over a
backend holding exactly 25 matching "To Do" rows, the first (reset) load
yields 10 to-do tasks with `hasMore = true`, and after two further
`loadMoreTasks` calls the to-do column holds all 25 matching rows with
`hasMore = false`. -/
theorem c2_pagination_scenario :
    (c2AfterEffect.tasksByStatus.get .toDo).length = 10
    ∧ c2AfterEffect.hasMoreByStatus.get .toDo = true
    ∧ c2AfterEffect.totalCountByStatus.get .toDo = 25
    ∧ c2AfterTwo.tasksByStatus.get .toDo = (List.range 25).map writingRow
    ∧ (c2AfterTwo.tasksByStatus.get .toDo).length = 25
    ∧ c2AfterTwo.hasMoreByStatus.get .toDo = false := by
  refine ⟨rfl, rfl, rfl, ?_, rfl, rfl⟩
  decide

/-- C4, counterexample: in a store where the to-do column is marked
exhausted but the in-progress column still has more to load, a single
non-reset `loadMoreTasks` call sets `hasMoreByStatus["to-do"]` back to
true — no filter reset involved. -/
theorem c4_counterexample :
    c4State.hasMoreByStatus.get .toDo = false
    ∧ (loadMoreTasks c4Backend false none c4State).1.hasMoreByStatus.get .toDo
        = true := by
  exact ⟨rfl, rfl⟩

/-- A count RPC's error log holds no `update_task_status` call. -/
theorem countRpcLogEvents_filter_update (status : String)
    (r : Except String (Option Nat)) :
    (countRpcLogEvents status r).filter Event.isUpdateTaskStatus = [] := by
  cases r <;> rfl

/-- A count RPC's error log holds no list fetch. -/
theorem countRpcLogEvents_filter_isFor (l status : String)
    (r : Except String (Option Nat)) :
    (countRpcLogEvents status r).filter (Event.isGetTaskByStatusFor l) = [] := by
  cases r <;> rfl

/-- A list RPC's event group (the call and its possible error log)
holds exactly the fetch for its own label, and no other list fetch. -/
theorem filter_isFor_fetchEvents (l status : String) (f : FetchFilters)
    (lim off : Nat) (r : Except String (List Task)) :
    (Event.rpc (.getTaskByStatus status f lim off)
      :: listRpcLogEvents r).filter (Event.isGetTaskByStatusFor l)
      = if status == l then [Event.rpc (.getTaskByStatus status f lim off)]
        else [] := by
  cases r <;>
    simp [listRpcLogEvents, Event.isGetTaskByStatusFor, List.filter] <;>
    split <;>
    simp_all

/-- The count-refresh trace contains no `update_task_status` call. -/
theorem counts_trace_no_update (b : Backend) (s : State) :
    (fetchStatusWiseCounts b s).2.filter Event.isUpdateTaskStatus = [] := by
  simp only [fetchStatusWiseCounts, countFor, getTaskCountByStatus,
    List.filter_append]
  rw [List.filter_cons_of_neg Bool.false_ne_true,
    List.filter_cons_of_neg Bool.false_ne_true,
    List.filter_cons_of_neg Bool.false_ne_true,
    countRpcLogEvents_filter_update, countRpcLogEvents_filter_update,
    countRpcLogEvents_filter_update]
  rfl

/-- Over a healthy backend the count refresh logs no console error. -/
theorem counts_trace_no_console_ok (b : Backend) (s : State)
    (hok : b.failing = false) :
    (fetchStatusWiseCounts b s).2.filter Event.isConsoleError = [] := by
  simp [fetchStatusWiseCounts, countFor, getTaskCountByStatus, countRpc, hok,
    countRpcLogEvents, List.filter_append, Event.isConsoleError]

/-- After a successful `moveTask`, the task record is the optimistic
relocation: the id is dropped from the source and destination columns
and the relabelled task is spliced into the destination. -/
theorem moveTask_tasksByStatus (b : Backend) (updateFails : Bool)
    (s : State) (taskId : String) (sourceCol destCol : StatusKey)
    (destIndex : Nat) (task : Task)
    (hfind : (s.tasksByStatus.get sourceCol).find?
      (fun t => toString t.id == taskId) = some task) :
    (moveTask b updateFails s taskId sourceCol destCol destIndex).1.tasksByStatus
      = (s.tasksByStatus.set sourceCol
          ((s.tasksByStatus.get sourceCol).filter (fun t => toString t.id != taskId))).set
          destCol
          (spliceInsert destIndex { task with status := statusKeyToStatusLabel destCol }
            ((s.tasksByStatus.get destCol).filter (fun t => toString t.id != taskId))) := by
  simp [moveTask, hfind, fetchStatusWiseCounts, reducer]

/-- The trace of a successful-lookup `moveTask`: the status-update call,
its error log when the update fails, then the count-refresh trace. -/
theorem moveTask_trace (b : Backend) (updateFails : Bool) (s : State)
    (taskId : String) (sourceCol destCol : StatusKey) (destIndex : Nat)
    (task : Task)
    (hfind : (s.tasksByStatus.get sourceCol).find?
      (fun t => toString t.id == taskId) = some task) :
    (moveTask b updateFails s taskId sourceCol destCol destIndex).2
      = .rpc (.updateTaskStatus task.id (statusKeyToStatusLabel destCol))
        :: ((if updateFails then [Event.consoleError "Failed to update task status"] else [])
          ++ (fetchStatusWiseCounts b (reducer s (.setTasksByStatus
              ((s.tasksByStatus.set sourceCol
                  ((s.tasksByStatus.get sourceCol).filter (fun t => toString t.id != taskId))).set
                destCol
                (spliceInsert destIndex { task with status := statusKeyToStatusLabel destCol }
                  ((s.tasksByStatus.get destCol).filter (fun t => toString t.id != taskId))))))).2) := by
  simp [moveTask, hfind]

/-- C1: when the task is present in the source column and the
destination differs from the source, `moveTask` removes it from the
source list, inserts the relabelled copy at the requested index of the
destination list, and issues exactly one `update_task_status` call
carrying the new status label. -/
theorem c1_moveTask_relocates_and_updates_status (b : Backend)
    (updateFails : Bool) (s : State) (taskId : String)
    (sourceCol destCol : StatusKey) (destIndex : Nat) (task : Task)
    (hfind : (s.tasksByStatus.get sourceCol).find?
      (fun t => toString t.id == taskId) = some task)
    (hne : sourceCol ≠ destCol)
    (hidx : destIndex ≤ ((s.tasksByStatus.get destCol).filter
      (fun t => toString t.id != taskId)).length) :
    ((moveTask b updateFails s taskId sourceCol destCol destIndex).1.tasksByStatus.get sourceCol
      = (s.tasksByStatus.get sourceCol).filter (fun t => toString t.id != taskId))
    ∧ ((moveTask b updateFails s taskId sourceCol destCol destIndex).1.tasksByStatus.get destCol
      = spliceInsert destIndex { task with status := statusKeyToStatusLabel destCol }
          ((s.tasksByStatus.get destCol).filter (fun t => toString t.id != taskId)))
    ∧ (((moveTask b updateFails s taskId sourceCol destCol destIndex).1.tasksByStatus.get destCol)[destIndex]?
      = some { task with status := statusKeyToStatusLabel destCol })
    ∧ ((moveTask b updateFails s taskId sourceCol destCol destIndex).2.filter Event.isUpdateTaskStatus
      = [.rpc (.updateTaskStatus task.id (statusKeyToStatusLabel destCol))]) := by
  have hstate := moveTask_tasksByStatus b updateFails s taskId sourceCol destCol
    destIndex task hfind
  refine ⟨?_, ?_, ?_, ?_⟩
  · rw [hstate, ByStatus.get_set_ne _ _ _ _ hne, ByStatus.get_set_self]
  · rw [hstate, ByStatus.get_set_self]
  · rw [hstate, ByStatus.get_set_self]
    exact spliceInsert_getElem _ _ _ hidx
  · rw [moveTask_trace b updateFails s taskId sourceCol destCol destIndex task hfind,
      List.filter_cons_of_pos rfl, List.filter_append, counts_trace_no_update]
    cases updateFails <;> rfl

/-- C1 witness: moving the concrete task with id 7 from to-do to
in-progress at index 0. -/
theorem c1_witness :
    ((wState.tasksByStatus.get .toDo).find? (fun t => toString t.id == "7")
      = some wTask)
    ∧ (((moveTask wBackend false wState "7" .toDo .inProgress 0).1.tasksByStatus.get .inProgress)[0]?
      = some { wTask with status := statusKeyToStatusLabel .inProgress })
    ∧ ((moveTask wBackend false wState "7" .toDo .inProgress 0).2.filter Event.isUpdateTaskStatus
      = [.rpc (.updateTaskStatus wTask.id (statusKeyToStatusLabel .inProgress))]) :=
  ⟨by decide,
   (c1_moveTask_relocates_and_updates_status wBackend false wState "7" .toDo
      .inProgress 0 wTask (by decide) (by decide) (by decide)).2.2.1,
   (c1_moveTask_relocates_and_updates_status wBackend false wState "7" .toDo
      .inProgress 0 wTask (by decide) (by decide) (by decide)).2.2.2⟩

/-- C7: when the `update_task_status` RPC fails (against an otherwise
healthy backend, so the count refresh succeeds), the optimistic
relocation stands — the task record equals the optimistic one, agreeing
with the successful run — and the failure shows up only as the single
update-failure console-error log. -/
theorem c7_move_failure_keeps_optimistic_state (b : Backend) (s : State)
    (taskId : String) (sourceCol destCol : StatusKey) (destIndex : Nat)
    (task : Task)
    (hfind : (s.tasksByStatus.get sourceCol).find?
      (fun t => toString t.id == taskId) = some task)
    (hok : b.failing = false) :
    ((moveTask b true s taskId sourceCol destCol destIndex).1.tasksByStatus
      = (s.tasksByStatus.set sourceCol
          ((s.tasksByStatus.get sourceCol).filter (fun t => toString t.id != taskId))).set
          destCol
          (spliceInsert destIndex { task with status := statusKeyToStatusLabel destCol }
            ((s.tasksByStatus.get destCol).filter (fun t => toString t.id != taskId))))
    ∧ ((moveTask b true s taskId sourceCol destCol destIndex).1.tasksByStatus
      = (moveTask b false s taskId sourceCol destCol destIndex).1.tasksByStatus)
    ∧ ((moveTask b true s taskId sourceCol destCol destIndex).2.filter Event.isConsoleError
      = [.consoleError "Failed to update task status"]) := by
  refine ⟨moveTask_tasksByStatus b true s taskId sourceCol destCol destIndex task hfind,
    ?_, ?_⟩
  · rw [moveTask_tasksByStatus b true s taskId sourceCol destCol destIndex task hfind,
      moveTask_tasksByStatus b false s taskId sourceCol destCol destIndex task hfind]
  · rw [moveTask_trace b true s taskId sourceCol destCol destIndex task hfind,
      List.filter_cons, List.filter_append, counts_trace_no_console_ok b _ hok]
    simp [Event.isConsoleError, List.filter]

/-- C7 witness: a failing move of the concrete task with id 7 over a
healthy backend keeps the relocated lists and logs once. -/
theorem c7_witness :
    ((wState.tasksByStatus.get .toDo).find? (fun t => toString t.id == "7")
      = some wTask)
    ∧ (wBackend.failing = false)
    ∧ ((moveTask wBackend true wState "7" .toDo .inProgress 0).1.tasksByStatus
      = (moveTask wBackend false wState "7" .toDo .inProgress 0).1.tasksByStatus)
    ∧ ((moveTask wBackend true wState "7" .toDo .inProgress 0).2.filter Event.isConsoleError
      = [.consoleError "Failed to update task status"]) :=
  ⟨by decide, rfl,
   (c7_move_failure_keeps_optimistic_state wBackend wState "7" .toDo .inProgress 0
      wTask (by decide) rfl).2.1,
   (c7_move_failure_keeps_optimistic_state wBackend wState "7" .toDo .inProgress 0
      wTask (by decide) rfl).2.2⟩

/-- The trace of a reset load: the three statuses' fetch event groups,
in order. -/
theorem loadMoreTasks_reset_trace (b : Backend) (s : State) :
    (loadMoreTasks b true none s).2
      = (loadOne b s true .toDo).evs
        ++ ((loadOne b s true .inProgress).evs ++ (loadOne b s true .done).evs) := by
  simp [loadMoreTasks, statusKeyArray]

/-- A per-status fetch contributes exactly one list fetch for its own
label and none for any other. -/
theorem loadOne_evs_isFor_length (b : Backend) (s : State) (reset : Bool)
    (label' : String) (key : StatusKey) :
    ((loadOne b s reset key).evs.filter (Event.isGetTaskByStatusFor label')).length
      = if statusKeyToStatusLabel key == label' then 1 else 0 := by
  simp only [loadOne, fetchTasksByStatus]
  rw [filter_isFor_fetchEvents]
  split <;> simp

/-- The count-refresh trace contains no list fetches. -/
theorem counts_trace_no_list_fetch (b : Backend) (s : State) (l : String) :
    (fetchStatusWiseCounts b s).2.filter (Event.isGetTaskByStatusFor l) = [] := by
  simp only [fetchStatusWiseCounts, countFor, getTaskCountByStatus,
    List.filter_append]
  rw [List.filter_cons_of_neg Bool.false_ne_true,
    List.filter_cons_of_neg Bool.false_ne_true,
    List.filter_cons_of_neg Bool.false_ne_true,
    countRpcLogEvents_filter_isFor, countRpcLogEvents_filter_isFor,
    countRpcLogEvents_filter_isFor]
  rfl

/-- C3: any single filter-field change marks the state dirty; the
`filtersChanged` effect's pagination reset then empties all three task
lists, zeroes every page and restores every has-more flag, and the
effect triggers exactly one page fetch per status. -/
theorem c3_filter_change_resets_and_reloads (s : State) (b : Backend)
    (a : Action) (ha : a.isFilterAction = true) :
    ((reducer s a).filtersChanged = true)
    ∧ ((reducer (reducer s a) .resetPagination).tasksByStatus = ByStatus.const [])
    ∧ ((reducer (reducer s a) .resetPagination).pageByStatus = ByStatus.const 0)
    ∧ ((reducer (reducer s a) .resetPagination).hasMoreByStatus = ByStatus.const true)
    ∧ (∀ key : StatusKey,
        ((filtersChangedEffect b (reducer s a)).2.filter
          (Event.isGetTaskByStatusFor (statusKeyToStatusLabel key))).length = 1) := by
  have hfc : (reducer s a).filtersChanged = true := by
    cases a <;> simp [Action.isFilterAction] at ha <;> rfl
  refine ⟨hfc, rfl, rfl, rfl, ?_⟩
  intro key
  have heff : (filtersChangedEffect b (reducer s a)).2
      = (loadMoreTasks b true none (reducer (reducer s a) .resetPagination)).2
        ++ (fetchStatusWiseCounts b
            (loadMoreTasks b true none (reducer (reducer s a) .resetPagination)).1).2 := by
    simp [filtersChangedEffect, hfc]
  rw [heff, List.filter_append, loadMoreTasks_reset_trace, counts_trace_no_list_fetch]
  cases key <;>
    simp [List.filter_append, List.length_append, loadOne_evs_isFor_length,
      statusKeyToStatusLabel]

/-- C3 witness: setting the category filter on the initial state. -/
theorem c3_witness :
    ((Action.setCategoryFilter (some "Design")).isFilterAction = true)
    ∧ ((reducer initialState (.setCategoryFilter (some "Design"))).filtersChanged = true)
    ∧ ((reducer (reducer initialState (.setCategoryFilter (some "Design")))
          .resetPagination).tasksByStatus = ByStatus.const [])
    ∧ (((filtersChangedEffect wBackend
          (reducer initialState (.setCategoryFilter (some "Design")))).2.filter
        (Event.isGetTaskByStatusFor (statusKeyToStatusLabel .toDo))).length = 1) :=
  ⟨rfl,
   (c3_filter_change_resets_and_reloads initialState wBackend
      (.setCategoryFilter (some "Design")) rfl).1,
   (c3_filter_change_resets_and_reloads initialState wBackend
      (.setCategoryFilter (some "Design")) rfl).2.1,
   (c3_filter_change_resets_and_reloads initialState wBackend
      (.setCategoryFilter (some "Design")) rfl).2.2.2.2 .toDo⟩

/-- C6: two realtime notifications within one debounce window produce a
single debounce firing, so the burst behaves as exactly one handler run
— on an idle store, one reset load followed by one count refresh, not
two. -/
theorem c6_debounced_burst_single_reload (b : Backend) (s : State)
    (t1 t2 wait : Nat) (hwin : t2 < t1 + wait) (hidle : s.loading = false) :
    (debounceFires wait [t1, t2] = [t2 + wait])
    ∧ (realtimeBurst b wait [t1, t2] s = handleRealtimeFire b s)
    ∧ ((realtimeBurst b wait [t1, t2] s).2
        = (loadMoreTasks b true none s).2
          ++ (fetchStatusWiseCounts b (loadMoreTasks b true none s).1).2) := by
  have hfires : debounceFires wait [t1, t2] = [t2 + wait] := by
    simp [debounceFires, hwin]
  have hburst : realtimeBurst b wait [t1, t2] s = handleRealtimeFire b s := by
    simp [realtimeBurst, hfires]
  refine ⟨hfires, hburst, ?_⟩
  rw [hburst]
  simp [handleRealtimeFire, hidle]

/-- C6 witness: two events 100 ms apart under a 300 ms window on the
idle initial store. -/
theorem c6_witness :
    (100 < 0 + 300)
    ∧ (initialState.loading = false)
    ∧ (debounceFires 300 [0, 100] = [100 + 300])
    ∧ (realtimeBurst wBackend 300 [0, 100] initialState
        = handleRealtimeFire wBackend initialState) :=
  ⟨by decide, rfl,
   (c6_debounced_burst_single_reload wBackend initialState 0 100 300
      (by decide) rfl).1,
   (c6_debounced_burst_single_reload wBackend initialState 0 100 300
      (by decide) rfl).2.1⟩

/-- C9: a comment whose parent reference names another comment of the
flat list renders nested under that parent — its node appears among the
parent's rendered children at every fuel, and, for a top-level parent,
inside the parent's node in the full rendering — whatever the order of
the flat list. -/
theorem c9_reply_renders_under_parent (comments : List Comment)
    (c p : Comment) (hc : c ∈ comments) (hp : p ∈ comments)
    (hpar : c.parent_id = some p.id) :
    (∀ fuel : Nat, ∃ ch, RenderedComment.node c ch
        ∈ renderCommentsAux comments (fuel + 1) (some p.id))
    ∧ (p.parent_id = none → ∃ chp, RenderedComment.node p chp ∈ renderComments comments
        ∧ ∃ chc, RenderedComment.node c chc ∈ chp) := by
  have key : ∀ (fuel : Nat) (pid : Option Nat), c.parent_id = pid →
      RenderedComment.node c (renderCommentsAux comments fuel (some c.id))
        ∈ renderCommentsAux comments (fuel + 1) pid := by
    intro fuel pid hpid
    show _ ∈ (comments.filter _).map _
    apply List.mem_map_of_mem
    exact List.mem_filter.mpr ⟨hc, by simp [hpid]⟩
  constructor
  · intro fuel
    exact ⟨_, key fuel (some p.id) hpar⟩
  · intro hroot
    have hbig : RenderedComment.node p
        (renderCommentsAux comments comments.length (some p.id))
        ∈ renderComments comments := by
      show _ ∈ (comments.filter _).map _
      apply List.mem_map_of_mem
      exact List.mem_filter.mpr ⟨hp, by simp [hroot]⟩
    obtain ⟨k, hk⟩ : ∃ k, comments.length = k + 1 := by
      cases hl : comments.length with
      | zero =>
          have hnil : comments = [] := List.length_eq_zero.mp hl
          exact absurd (hnil ▸ hc) (List.not_mem_nil c)
      | succ n => exact ⟨n, rfl⟩
    refine ⟨_, hbig, ?_⟩
    rw [hk]
    exact ⟨_, key k (some p.id) hpar⟩

/-- C9 witness: a two-comment list where the reply precedes its parent. -/
theorem c9_witness :
    (wChildComment ∈ wComments)
    ∧ (wParentComment ∈ wComments)
    ∧ (wChildComment.parent_id = some wParentComment.id)
    ∧ (∃ chp, RenderedComment.node wParentComment chp ∈ renderComments wComments
        ∧ ∃ chc, RenderedComment.node wChildComment chc ∈ chp) :=
  ⟨by decide, by decide, rfl,
   (c9_reply_renders_under_parent wComments wChildComment wParentComment
      (by decide) (by decide) rfl).2 rfl⟩

/-- The fetched page of a non-reset load for one status, in terms of the
backend query at the current page offset. -/
theorem loadOne_tasks_nonreset (b : Backend) (s : State) (key : StatusKey) :
    (loadOne b s false key).tasks
      = fetchTasksByStatusResult (listRpc b (statusKeyToStatusLabel key)
          (loadRpcFilters s key) (s.limit.getD PAGE_SIZE)
          (s.pageByStatus.get key * s.limit.getD PAGE_SIZE)) := by
  simp [loadOne, fetchTasksByStatus, loadRpcFilters, loadArgsFor]

/-- With a positive limit and no backend rows past the current page
offset, a non-reset fetch never returns a full page. -/
theorem loadOne_beq_false (b : Backend) (s : State) (key : StatusKey)
    (h1 : 0 < s.limit.getD PAGE_SIZE)
    (h2 : (b.rows.filter (matchesQuery (statusKeyToStatusLabel key)
        (loadRpcFilters s key))).length
      ≤ s.pageByStatus.get key * s.limit.getD PAGE_SIZE) :
    ((loadOne b s false key).tasks.length == s.limit.getD PAGE_SIZE) = false := by
  rw [loadOne_tasks_nonreset]
  by_cases hf : b.failing
  · simp [listRpc, hf, fetchTasksByStatusResult]
    omega
  · simp [listRpc, hf, fetchTasksByStatusResult, List.drop_eq_nil_of_le h2]
    omega

/-- The non-reset dispatches for one status leave the other statuses'
has-more flags alone. -/
theorem hasMore_applyNonReset_ne (s0 : State) (eff : Nat) (st : State)
    (r : LoadResult) (key : StatusKey) (h : r.key ≠ key) :
    (applyNonResetDispatches s0 eff st r).hasMoreByStatus.get key
      = st.hasMoreByStatus.get key := by
  simp [applyNonResetDispatches, reducer,
    ByStatus.get_set_ne _ key r.key _ (Ne.symm h)]

/-- The non-reset dispatches set the status's own has-more flag to
whether a full page came back. -/
theorem hasMore_applyNonReset_self (s0 : State) (eff : Nat) (st : State)
    (r : LoadResult) :
    (applyNonResetDispatches s0 eff st r).hasMoreByStatus.get r.key
      = (r.tasks.length == eff) := by
  simp [applyNonResetDispatches, reducer, ByStatus.get_set_self]

/-- The key field of a per-status fetch result. -/
theorem loadOne_key (b : Backend) (s : State) (reset : Bool) (k : StatusKey) :
    (loadOne b s reset k).key = k := rfl

/-- `hasMore_applyNonReset_ne` specialised to a `loadOne` result. -/
theorem hasMore_apply_loadOne_ne (b : Backend) (s : State) (reset : Bool)
    (s0 : State) (eff : Nat) (st : State) (k key : StatusKey) (h : k ≠ key) :
    (applyNonResetDispatches s0 eff st (loadOne b s reset k)).hasMoreByStatus.get key
      = st.hasMoreByStatus.get key :=
  hasMore_applyNonReset_ne s0 eff st (loadOne b s reset k) key
    (by rw [loadOne_key]; exact h)

/-- `hasMore_applyNonReset_self` specialised to a `loadOne` result. -/
theorem hasMore_apply_loadOne_self (b : Backend) (s : State) (reset : Bool)
    (s0 : State) (eff : Nat) (st : State) (k : StatusKey) :
    (applyNonResetDispatches s0 eff st (loadOne b s reset k)).hasMoreByStatus.get k
      = ((loadOne b s reset k).tasks.length == eff) := by
  have h := hasMore_applyNonReset_self s0 eff st (loadOne b s reset k)
  rwa [loadOne_key] at h

/-- After a non-reset load, each status's has-more flag is either
untouched or set to whether its refetch returned a full page. -/
theorem loadMoreTasks_nonreset_hasMore (b : Backend) (spec : Option StatusKey)
    (s : State) (key : StatusKey) :
    (loadMoreTasks b false spec s).1.hasMoreByStatus.get key
        = s.hasMoreByStatus.get key
    ∨ (loadMoreTasks b false spec s).1.hasMoreByStatus.get key
        = ((loadOne b s false key).tasks.length == s.limit.getD PAGE_SIZE) := by
  by_cases hl : s.loading
  · left; simp [loadMoreTasks, hl]
  · have hl' : s.loading = false := by
      simpa using hl
    cases spec with
    | some k' =>
        simp only [loadMoreTasks, hl', Bool.false_and, Bool.not_false,
          Bool.and_true, if_false, Bool.false_or]
        split
        · left; rfl
        · split
          · left; rfl
          · by_cases hkey : k' = key
            · right
              subst hkey
              simp [List.foldl, reducer, hasMore_apply_loadOne_self]
            · left
              simp [List.foldl, reducer,
                hasMore_apply_loadOne_ne _ _ _ _ _ _ _ _ hkey]
    | none =>
        simp only [loadMoreTasks, hl', Bool.false_and, Bool.not_false,
          Bool.and_true, if_false, Bool.false_or, statusKeyArray]
        split
        · left; rfl
        · split
          · left; rfl
          · right
            cases key <;>
              simp [List.foldl, reducer, hasMore_apply_loadOne_self,
                hasMore_apply_loadOne_ne, statusKeyArray]

/-- C4, amended: once a status's has-more flag is false, non-reset
`loadMoreTasks` calls keep it false as long as the limit is positive and
the backend's filtered rows for that status do not reach past the
current page offset; (a non-reset refetch returning a full page — e.g.
after backend growth — or a filter reset can restore it to true). -/
theorem c4_hasMore_false_preserved_nonreset (b : Backend)
    (spec : Option StatusKey) (s : State) (key : StatusKey)
    (h0 : s.hasMoreByStatus.get key = false)
    (h1 : 0 < s.limit.getD PAGE_SIZE)
    (h2 : (b.rows.filter (matchesQuery (statusKeyToStatusLabel key)
        (loadRpcFilters s key))).length
      ≤ s.pageByStatus.get key * s.limit.getD PAGE_SIZE) :
    (loadMoreTasks b false spec s).1.hasMoreByStatus.get key = false := by
  rcases loadMoreTasks_nonreset_hasMore b spec s key with h | h
  · rw [h, h0]
  · rw [h]
    exact loadOne_beq_false b s key h1 h2

/-- C4 witness: the exhausted to-do column of `c4AmendedState` (page 1,
limit 2, two backend rows) stays exhausted across a non-reset load that
does refetch it. -/
theorem c4_witness :
    (c4AmendedState.hasMoreByStatus.get .toDo = false)
    ∧ (0 < c4AmendedState.limit.getD PAGE_SIZE)
    ∧ ((c4Backend.rows.filter (matchesQuery (statusKeyToStatusLabel .toDo)
        (loadRpcFilters c4AmendedState .toDo))).length
      ≤ c4AmendedState.pageByStatus.get .toDo * c4AmendedState.limit.getD PAGE_SIZE)
    ∧ ((loadMoreTasks c4Backend false none c4AmendedState).1.hasMoreByStatus.get .toDo
        = false) :=
  ⟨rfl, by decide, by decide,
   c4_hasMore_false_preserved_nonreset c4Backend none c4AmendedState .toDo rfl
     (by decide) (by decide)⟩

end TaskBoard
